import Mathlib

/-!
Verification of the campaign-management core of the emails front-end
(`src/unnamed/part_001`, the campaigns page) and the Google SMTP
credential tab (`src/src/components/settings/GoogleTab.tsx`).

The TypeScript source is shallowly embedded: each React event handler is
modelled as a pure function from its inputs (component state, the event
payload, and — for handlers performing remote calls — an explicit oracle
describing the outcome of each awaited remote call) to the state it
leaves behind together with the user-facing messages it raises.
-/

set_option autoImplicit false

namespace EmailsFront

/-- The SMTP provider tag carried by every sender-email entry
(`smtpProvider: 'amazon' | 'gmail'` in `part_001`). -/
inductive Provider where
  | amazon
  | gmail
deriving DecidableEq, Repr

/-- An SES credential as cached client-side (`SESEmail` in `part_000`);
the transient `testing` flag is kept for fidelity. -/
structure SESEmail where
  address : String
  testing : Option Bool := none
deriving DecidableEq, Repr

/-- A Google SMTP credential as cached client-side (`GoogleEmail` in
`part_000`). -/
structure GoogleEmail where
  address : String
  appPassword : String
  testing : Option Bool := none
deriving DecidableEq, Repr

/-- A stored template (`Template` from the templates feature): only the
fields the campaigns page reads (`id`, `name`, `format`). -/
structure Template where
  id : String
  name : String
  format : String
deriving DecidableEq, Repr

/-- The role a template plays in a campaign
(`type: 'body' | 'attachment'` in `part_001`). -/
inductive TemplateType where
  | body
  | attachment
deriving DecidableEq, Repr

/-- One entry of a campaign's template list (`{ template, type }` in
the `Campaign` interface of `part_001`). -/
structure CampaignTemplate where
  template : Template
  type : TemplateType
deriving DecidableEq, Repr

/-- A selectable sender email (`EmailEntry` enriched with the provider,
as built by `availableEmails` in `part_001`). -/
structure EmailEntry where
  address : String
  smtpProvider : Provider
deriving DecidableEq, Repr

/-- A campaign sender email with its per-day sending rate
(`EmailWithRate` in `part_001`; `sendingRate` is optional there). -/
structure EmailWithRate where
  address : String
  smtpProvider : Provider
  sendingRate : Option Int := none
deriving DecidableEq, Repr

/-- The in-memory campaign model (`Campaign` interface in `part_001`). -/
structure Campaign where
  id : String
  name : String
  isActive : Bool
  city : String
  subjectLines : List String
  daysTillClose : String
  templates : List CampaignTemplate
  emails : List EmailWithRate
  lastModified : String
deriving DecidableEq, Repr

/-- The result shape of `validateCampaign`
(`{ valid: boolean, reason?: string }` in `part_001`). -/
structure ValidationResult where
  valid : Bool
  reason : Option String
deriving DecidableEq, Repr

/-- `validateCampaign` from `part_001` lines 75–89, translated check by
check in source order.  `!campaign.city` is the JavaScript falsiness
test, which on a string means emptiness. -/
def validateCampaign (campaign : Campaign) : ValidationResult :=
  if campaign.emails.length = 0 then
    { valid := false, reason := some "At least one sender email is required" }
  else if campaign.city = "" then
    { valid := false, reason := some "A target city must be selected" }
  else if campaign.subjectLines.length = 0 then
    { valid := false, reason := some "At least one subject line is required" }
  else if !(campaign.templates.any fun t => t.type == TemplateType.body) then
    { valid := false, reason := some "A body template is required" }
  else
    { valid := true, reason := none }

/-- A campaign holding two body-role templates while meeting every other
validity condition; `validateCampaign` accepts it because the source only
tests `campaign.templates.some(t => t.type === 'body')`. -/
def twoBodyCampaign : Campaign :=
  { id := "c1", name := "Two bodies", isActive := false, city := "Chicago",
    subjectLines := ["Hi"], daysTillClose := "NA",
    templates := [⟨⟨"t1", "A", "html"⟩, TemplateType.body⟩,
                  ⟨⟨"t2", "B", "html"⟩, TemplateType.body⟩],
    emails := [⟨"a@x.com", Provider.amazon, some 1440⟩],
    lastModified := "" }

/-- The §8 example campaign: city Chicago, one subject line, one
html/body template, one sender email. -/
def exampleValidCampaign : Campaign :=
  { id := "c0", name := "Example", isActive := false, city := "Chicago",
    subjectLines := ["Hi"], daysTillClose := "NA",
    templates := [⟨⟨"t1", "A", "html"⟩, TemplateType.body⟩],
    emails := [⟨"a@x.com", Provider.amazon, some 1440⟩],
    lastModified := "" }

/-- Claim C1, counterexample: a campaign with TWO body-role templates
(and a sender, a city and a subject line) is reported Valid by
`validateCampaign`, so Valid does not require having EXACTLY ONE
body-role template as the claim states. -/
theorem validateCampaign_exactly_one_body_refuted :
    (validateCampaign twoBodyCampaign).valid = true ∧
    (twoBodyCampaign.templates.filter fun t => t.type == TemplateType.body).length ≠ 1 := by
  decide

/-- Claim C1 (amended): `validateCampaign c` returns Valid iff `c` has at
least one sender email, a non-empty city, at least one subject line and
at least one body-role template (under the editor's at-most-one-body
invariant this is the same as exactly one); and when it returns Invalid
the reason is the first failing condition, checked in that order. -/
theorem validateCampaign_valid_iff_first_failing_reason (c : Campaign) :
    ((validateCampaign c).valid = true ↔
      (c.emails ≠ [] ∧ c.city ≠ "" ∧ c.subjectLines ≠ [] ∧
        ∃ t ∈ c.templates, t.type = TemplateType.body))
    ∧ (c.emails = [] →
        validateCampaign c
          = { valid := false, reason := some "At least one sender email is required" })
    ∧ (c.emails ≠ [] → c.city = "" →
        validateCampaign c
          = { valid := false, reason := some "A target city must be selected" })
    ∧ (c.emails ≠ [] → c.city ≠ "" → c.subjectLines = [] →
        validateCampaign c
          = { valid := false, reason := some "At least one subject line is required" })
    ∧ (c.emails ≠ [] → c.city ≠ "" → c.subjectLines ≠ [] →
        (¬ ∃ t ∈ c.templates, t.type = TemplateType.body) →
        validateCampaign c
          = { valid := false, reason := some "A body template is required" }) := by
  unfold validateCampaign
  by_cases h1 : c.emails.length = 0 <;> by_cases h2 : c.city = "" <;>
    by_cases h3 : c.subjectLines.length = 0 <;>
    by_cases h4 : ∃ t ∈ c.templates, t.type = TemplateType.body <;>
    simp_all [List.length_eq_zero, List.any_eq_true]
  rw [if_neg]
  push_neg
  exact h4

/-- Witness for the amended C1 theorem at concrete campaigns: the §8
example is Valid, and each of the four Invalid reasons is produced, in
order, on the example with the corresponding part removed. -/
theorem validateCampaign_valid_iff_witness :
    (validateCampaign exampleValidCampaign).valid = true
    ∧ validateCampaign { exampleValidCampaign with emails := [] }
        = { valid := false, reason := some "At least one sender email is required" }
    ∧ validateCampaign { exampleValidCampaign with city := "" }
        = { valid := false, reason := some "A target city must be selected" }
    ∧ validateCampaign { exampleValidCampaign with subjectLines := [] }
        = { valid := false, reason := some "At least one subject line is required" }
    ∧ validateCampaign { exampleValidCampaign with templates := [] }
        = { valid := false, reason := some "A body template is required" } :=
  ⟨(validateCampaign_valid_iff_first_failing_reason exampleValidCampaign).1.2
      ⟨by decide, by decide, by decide, by decide⟩,
   (validateCampaign_valid_iff_first_failing_reason
      { exampleValidCampaign with emails := [] }).2.1 (by decide),
   (validateCampaign_valid_iff_first_failing_reason
      { exampleValidCampaign with city := "" }).2.2.1 (by decide) (by decide),
   (validateCampaign_valid_iff_first_failing_reason
      { exampleValidCampaign with subjectLines := [] }).2.2.2.1
      (by decide) (by decide) (by decide),
   (validateCampaign_valid_iff_first_failing_reason
      { exampleValidCampaign with templates := [] }).2.2.2.2
      (by decide) (by decide) (by decide) (by decide)⟩

/-- `availableEmails` from `part_001` lines 56–59: the SES addresses
tagged `amazon` followed by the Google addresses tagged `gmail`. -/
def availableEmails (sesEmails : List SESEmail) (googleEmails : List GoogleEmail) :
    List EmailEntry :=
  sesEmails.map (fun email => { address := email.address, smtpProvider := Provider.amazon })
    ++ googleEmails.map (fun email => { address := email.address, smtpProvider := Provider.gmail })

/-- The per-campaign body of the reconciliation `useEffect` in
`part_001` lines 65–73: keep exactly the sender entries whose address is
in the set of available addresses (the `Set` membership test is modelled
by list containment, which agrees with it). -/
def pruneCampaignEmails (sesEmails : List SESEmail) (googleEmails : List GoogleEmail)
    (campaign : Campaign) : Campaign :=
  let allEmailAddresses := (availableEmails sesEmails googleEmails).map (fun email => email.address)
  { campaign with
      emails := campaign.emails.filter (fun email => allEmailAddresses.contains email.address) }

/-- The reconciliation `useEffect` of `part_001` lines 65–73, run over
the whole campaign list whenever `sesEmails` or `googleEmails` change. -/
def reconcileCampaigns (sesEmails : List SESEmail) (googleEmails : List GoogleEmail)
    (campaigns : List Campaign) : List Campaign :=
  campaigns.map (pruneCampaignEmails sesEmails googleEmails)

/-- Claim C2: after any credential-store change, the reconciliation pass
maps each campaign in place (the list keeps its length), replaces its
sender-email list by exactly the entries whose address is still in the
current credential set, and leaves every other field (id, name,
isActive, city, subjectLines, daysTillClose, templates, lastModified)
unchanged. -/
theorem reconcileCampaigns_prunes_only_missing_addresses
    (ses : List SESEmail) (google : List GoogleEmail) (cs : List Campaign) :
    (reconcileCampaigns ses google cs).length = cs.length
    ∧ ∀ (i : Nat) (h : i < cs.length) (h2 : i < (reconcileCampaigns ses google cs).length),
        ((reconcileCampaigns ses google cs).get ⟨i, h2⟩).emails
            = ((cs.get ⟨i, h⟩).emails.filter
                (fun e => ((availableEmails ses google).map (fun a => a.address)).contains
                  e.address))
        ∧ (∀ e, e ∈ ((reconcileCampaigns ses google cs).get ⟨i, h2⟩).emails ↔
              (e ∈ (cs.get ⟨i, h⟩).emails ∧ ∃ a ∈ availableEmails ses google,
                a.address = e.address))
        ∧ ((reconcileCampaigns ses google cs).get ⟨i, h2⟩).id = (cs.get ⟨i, h⟩).id
        ∧ ((reconcileCampaigns ses google cs).get ⟨i, h2⟩).name = (cs.get ⟨i, h⟩).name
        ∧ ((reconcileCampaigns ses google cs).get ⟨i, h2⟩).isActive = (cs.get ⟨i, h⟩).isActive
        ∧ ((reconcileCampaigns ses google cs).get ⟨i, h2⟩).city = (cs.get ⟨i, h⟩).city
        ∧ ((reconcileCampaigns ses google cs).get ⟨i, h2⟩).subjectLines
            = (cs.get ⟨i, h⟩).subjectLines
        ∧ ((reconcileCampaigns ses google cs).get ⟨i, h2⟩).daysTillClose
            = (cs.get ⟨i, h⟩).daysTillClose
        ∧ ((reconcileCampaigns ses google cs).get ⟨i, h2⟩).templates = (cs.get ⟨i, h⟩).templates
        ∧ ((reconcileCampaigns ses google cs).get ⟨i, h2⟩).lastModified
            = (cs.get ⟨i, h⟩).lastModified := by
  refine ⟨by simp [reconcileCampaigns], ?_⟩
  intro i h h2
  have hget : (reconcileCampaigns ses google cs).get ⟨i, h2⟩
      = pruneCampaignEmails ses google (cs.get ⟨i, h⟩) := by
    simp [reconcileCampaigns, List.get_eq_getElem, List.getElem_map]
  rw [hget]
  refine ⟨rfl, ?_, rfl, rfl, rfl, rfl, rfl, rfl, rfl, rfl⟩
  intro e
  simp [pruneCampaignEmails, List.mem_filter]

/-- Concrete data for the reconciliation witnesses: one SES credential,
one Google credential, and a campaign referencing both plus a dangling
address. -/
def reconDemoCampaign : Campaign :=
  { id := "c2", name := "Recon", isActive := false, city := "Chicago",
    subjectLines := ["Hi"], daysTillClose := "NA",
    templates := [],
    emails := [⟨"s@x.com", Provider.amazon, some 1440⟩,
               ⟨"g@gmail.com", Provider.gmail, some 100⟩,
               ⟨"gone@x.com", Provider.amazon, some 7⟩],
    lastModified := "t0" }

/-- Witness for the C2 theorem: on the demo campaign the dangling
address is pruned, the two live entries and all other fields survive. -/
theorem reconcileCampaigns_prune_witness :
    ((reconcileCampaigns [⟨"s@x.com", none⟩] [⟨"g@gmail.com", "pw", none⟩]
        [reconDemoCampaign]).get ⟨0, by decide⟩).emails
      = (reconDemoCampaign.emails.filter
          (fun e => ((availableEmails [⟨"s@x.com", none⟩] [⟨"g@gmail.com", "pw", none⟩]).map
            (fun a => a.address)).contains e.address))
    ∧ ((reconcileCampaigns [⟨"s@x.com", none⟩] [⟨"g@gmail.com", "pw", none⟩]
        [reconDemoCampaign]).get ⟨0, by decide⟩).lastModified = reconDemoCampaign.lastModified := by
  have h := reconcileCampaigns_prunes_only_missing_addresses
    [⟨"s@x.com", none⟩] [⟨"g@gmail.com", "pw", none⟩] [reconDemoCampaign]
  have h0 := h.2 0 (by decide) (by decide)
  exact ⟨h0.1, h0.2.2.2.2.2.2.2.2.2⟩

/-- Claim C10: an entry of a campaign's sender list survives the
reconciliation pass precisely when SOME credential — of either provider
— still holds its address; the entry's own provider tag plays no role. -/
theorem pruneCampaignEmails_retains_by_address_alone
    (ses : List SESEmail) (google : List GoogleEmail) (c : Campaign) (e : EmailWithRate)
    (he : e ∈ c.emails) :
    e ∈ (pruneCampaignEmails ses google c).emails ↔
      ((∃ s ∈ ses, s.address = e.address) ∨ (∃ g ∈ google, g.address = e.address)) := by
  simp [pruneCampaignEmails, List.mem_filter, availableEmails, he]

/-- Witness for C10 at a concrete cross-provider input: the campaign
entry is tagged `amazon`, the SES list is empty, yet the entry is
retained because a GOOGLE credential still holds its address. -/
theorem pruneCampaignEmails_cross_provider_witness :
    (⟨"shared@gmail.com", Provider.amazon, some 1440⟩ : EmailWithRate) ∈
      (pruneCampaignEmails [] [⟨"shared@gmail.com", "pw", none⟩]
        { reconDemoCampaign with
            emails := [⟨"shared@gmail.com", Provider.amazon, some 1440⟩] }).emails :=
  (pruneCampaignEmails_retains_by_address_alone [] [⟨"shared@gmail.com", "pw", none⟩]
      { reconDemoCampaign with emails := [⟨"shared@gmail.com", Provider.amazon, some 1440⟩] }
      ⟨"shared@gmail.com", Provider.amazon, some 1440⟩ (by decide)).2
    (Or.inr ⟨⟨"shared@gmail.com", "pw", none⟩, by decide, rfl⟩)

/-- The role derivation of `part_001` line 269:
`template.format === 'html' ? 'body' : 'attachment'`. -/
def templateTypeFor (template : Template) : TemplateType :=
  if template.format = "html" then TemplateType.body else TemplateType.attachment

/-- Outcome of `handleAddTemplate`: the draft's template set, the alert
raised (if any), and the selection box value afterwards. -/
structure AddTemplateResult where
  templates : List CampaignTemplate
  alertMsg : Option String
  selectedTemplateId : String
deriving DecidableEq, Repr

/-- `handleAddTemplate` from `part_001` lines 257–281, over the draft's
template set (the draft's other fields are untouched by this handler
apart from `lastModified`, which `handleUpdateCampaign` refreshes). -/
def handleAddTemplate (allTemplates : List Template) (selectedTemplateId : String)
    (draftTemplates : List CampaignTemplate) : AddTemplateResult :=
  if selectedTemplateId = "" then
    ⟨draftTemplates, none, selectedTemplateId⟩
  else
    match allTemplates.find? (fun t => t.id == selectedTemplateId) with
    | none => ⟨draftTemplates, none, selectedTemplateId⟩
    | some template =>
      if draftTemplates.any (fun t => t.template.id == template.id) then
        ⟨draftTemplates, some "This template has already been added to the campaign.",
          selectedTemplateId⟩
      else
        let templateType := templateTypeFor template
        if templateType == TemplateType.body
            && draftTemplates.any (fun t => t.type == TemplateType.body) then
          ⟨draftTemplates,
            some "Only one HTML template can be used as the email body. Please remove the existing body template first.",
            selectedTemplateId⟩
        else
          ⟨draftTemplates ++ [⟨template, templateType⟩], none, ""⟩

/-- Claim C3: with a non-empty selection resolving to template `t`,
(1) if the draft already holds a body-role template and `t` has format
`html` the addition is rejected with a message and the template set is
unchanged; (2) if `t` is already in the draft the addition is rejected
with the duplicate message and the set is unchanged; (3) the derived
role is body exactly when the format is `html`; (4) otherwise `t` is
appended with its derived role. -/
theorem handleAddTemplate_rejects_and_derives_role (allT : List Template) (sel : String)
    (draft : List CampaignTemplate) (t : Template)
    (hsel : sel ≠ "") (hfind : allT.find? (fun x => x.id == sel) = some t) :
    ((∃ ct ∈ draft, ct.type = TemplateType.body) → t.format = "html" →
        (handleAddTemplate allT sel draft).templates = draft
        ∧ (handleAddTemplate allT sel draft).alertMsg.isSome = true)
    ∧ ((∃ ct ∈ draft, ct.template.id = t.id) →
        (handleAddTemplate allT sel draft).templates = draft
        ∧ (handleAddTemplate allT sel draft).alertMsg
            = some "This template has already been added to the campaign.")
    ∧ (templateTypeFor t = TemplateType.body ↔ t.format = "html")
    ∧ ((¬ ∃ ct ∈ draft, ct.template.id = t.id) →
        (¬ (templateTypeFor t = TemplateType.body ∧ ∃ ct ∈ draft, ct.type = TemplateType.body)) →
        (handleAddTemplate allT sel draft).templates
          = draft ++ [⟨t, templateTypeFor t⟩]
        ∧ (handleAddTemplate allT sel draft).alertMsg = none) := by
  by_cases hdup : (draft.any fun ct => ct.template.id == t.id) = true <;>
  by_cases hbody : (draft.any fun ct => ct.type == TemplateType.body) = true <;>
  by_cases hfmt : t.format = "html" <;>
    simp_all [handleAddTemplate, templateTypeFor, List.any_eq_true] <;>
  · rw [if_neg (by push_neg; exact hdup)]
    try rw [if_neg (by push_neg; exact hbody)]
    exact ⟨rfl, rfl⟩

/-- Template fixtures for the C3 witness. -/
def tplHtmlA : Template := ⟨"tA", "Body A", "html"⟩

/-- A second html-format template, not in the demo draft. -/
def tplHtmlB : Template := ⟨"tB", "Body B", "html"⟩

/-- A docx-format template, so of attachment role. -/
def tplDocx : Template := ⟨"tD", "Attach D", "docx"⟩

/-- A draft template set already holding one body-role template. -/
def draftWithBody : List CampaignTemplate := [⟨tplHtmlA, TemplateType.body⟩]

/-- Witness for C3 at concrete inputs: a second html template is
rejected leaving the set unchanged, re-adding the present template is
rejected with the duplicate message, docx derives the attachment role,
and adding the docx template appends it with that role. -/
theorem handleAddTemplate_witness :
    ((handleAddTemplate [tplHtmlA, tplHtmlB, tplDocx] "tB" draftWithBody).templates
        = draftWithBody
      ∧ (handleAddTemplate [tplHtmlA, tplHtmlB, tplDocx] "tB" draftWithBody).alertMsg.isSome
        = true)
    ∧ ((handleAddTemplate [tplHtmlA, tplHtmlB, tplDocx] "tA" draftWithBody).templates
        = draftWithBody
      ∧ (handleAddTemplate [tplHtmlA, tplHtmlB, tplDocx] "tA" draftWithBody).alertMsg
        = some "This template has already been added to the campaign.")
    ∧ templateTypeFor tplDocx ≠ TemplateType.body
    ∧ (handleAddTemplate [tplHtmlA, tplHtmlB, tplDocx] "tD" draftWithBody).templates
        = draftWithBody ++ [⟨tplDocx, TemplateType.attachment⟩] := by
  have hB := handleAddTemplate_rejects_and_derives_role [tplHtmlA, tplHtmlB, tplDocx] "tB"
    draftWithBody tplHtmlB (by decide) (by decide)
  have hA := handleAddTemplate_rejects_and_derives_role [tplHtmlA, tplHtmlB, tplDocx] "tA"
    draftWithBody tplHtmlA (by decide) (by decide)
  have hD := handleAddTemplate_rejects_and_derives_role [tplHtmlA, tplHtmlB, tplDocx] "tD"
    draftWithBody tplDocx (by decide) (by decide)
  refine ⟨hB.1 ⟨⟨tplHtmlA, TemplateType.body⟩, by decide, rfl⟩ rfl, ?_, ?_, ?_⟩
  · exact hA.2.1 ⟨⟨tplHtmlA, TemplateType.body⟩, by decide, rfl⟩
  · exact fun hb => absurd (hD.2.2.1.mp hb) (by decide)
  · have h4 := hD.2.2.2 (by decide) (by decide)
    exact h4.1

/-- `handleAddEmail` from `part_001` lines 322–327: unconditionally
append the entry with the default sending rate 1440. -/
def handleAddEmail (draftEmails : List EmailWithRate) (email : EmailEntry) :
    List EmailWithRate :=
  draftEmails ++ [{ address := email.address, smtpProvider := email.smtpProvider,
                    sendingRate := some 1440 }]

/-- The option list rendered by the sender-email select of `part_001`
lines 783–791: the available emails whose address is not already in the
draft. -/
def selectableEmailOptions (available : List EmailEntry) (draftEmails : List EmailWithRate) :
    List EmailEntry :=
  available.filter (fun email => !(draftEmails.any fun e => e.address == email.address))

/-- The select's `onChange` handler of `part_001` lines 776–779 combined
with the rendering of lines 783–791: the DOM can only deliver a value
that is one of the rendered options (or the empty placeholder), so a
value outside `selectableEmailOptions` leaves the draft unchanged; an
option value is looked up in `availableEmails` and added via
`handleAddEmail`. -/
def onSelectSenderEmail (available : List EmailEntry) (draftEmails : List EmailWithRate)
    (value : String) : List EmailWithRate :=
  if (selectableEmailOptions available draftEmails).any (fun e => e.address == value) then
    match available.find? (fun e => e.address == value) with
    | some email => handleAddEmail draftEmails email
    | none => draftEmails
  else draftEmails

/-- Claim C4: selecting an address already present among the draft's
sender emails leaves the list unchanged (such an address is not among
the rendered options), and selecting an available address that is not
yet present appends it with the default daily rate 1440. -/
theorem onSelectSenderEmail_appends_default_rate_unless_present
    (available : List EmailEntry) (draftEmails : List EmailWithRate) (value : String) :
    ((∃ e ∈ draftEmails, e.address = value) →
        onSelectSenderEmail available draftEmails value = draftEmails)
    ∧ (∀ em, (¬ ∃ e ∈ draftEmails, e.address = value) →
        available.find? (fun e => e.address == value) = some em →
        onSelectSenderEmail available draftEmails value
          = draftEmails ++ [{ address := em.address, smtpProvider := em.smtpProvider,
                              sendingRate := some 1440 }]) := by
  constructor
  · intro hpresent
    obtain ⟨e, he, heq⟩ := hpresent
    unfold onSelectSenderEmail
    rw [if_neg]
    intro hcond
    rw [List.any_eq_true] at hcond
    obtain ⟨x, hx, hxbeq⟩ := hcond
    rw [beq_iff_eq] at hxbeq
    rw [selectableEmailOptions, List.mem_filter] at hx
    have hany : (draftEmails.any fun e2 => e2.address == x.address) = true :=
      List.any_eq_true.mpr ⟨e, he, by rw [beq_iff_eq, heq, hxbeq]⟩
    rw [hany] at hx
    exact absurd hx.2 (by decide)
  · intro em habsent hfind
    have hmem : em ∈ available := List.mem_of_find?_eq_some hfind
    have haddr : em.address = value := by
      have := List.find?_some hfind
      rwa [beq_iff_eq] at this
    unfold onSelectSenderEmail
    rw [if_pos, hfind]
    · rfl
    · simp only [List.any_eq_true, selectableEmailOptions, List.mem_filter]
      refine ⟨em, ⟨hmem, ?_⟩, by rw [beq_iff_eq]; exact haddr⟩
      simp only [Bool.not_eq_eq_eq_not, Bool.not_true, List.any_eq_false]
      intro e he
      rw [beq_iff_eq]
      intro heq
      exact habsent ⟨e, he, heq.trans haddr⟩

/-- Witness for C4: with one available address already in the draft and
one fresh, selecting the present one changes nothing and selecting the
fresh one appends it at rate 1440. -/
theorem onSelectSenderEmail_witness :
    onSelectSenderEmail [⟨"a@x.com", Provider.amazon⟩, ⟨"b@gmail.com", Provider.gmail⟩]
        [⟨"a@x.com", Provider.amazon, some 10⟩] "a@x.com"
      = [⟨"a@x.com", Provider.amazon, some 10⟩]
    ∧ onSelectSenderEmail [⟨"a@x.com", Provider.amazon⟩, ⟨"b@gmail.com", Provider.gmail⟩]
        [⟨"a@x.com", Provider.amazon, some 10⟩] "b@gmail.com"
      = [⟨"a@x.com", Provider.amazon, some 10⟩,
         ⟨"b@gmail.com", Provider.gmail, some 1440⟩] :=
  ⟨(onSelectSenderEmail_appends_default_rate_unless_present
      [⟨"a@x.com", Provider.amazon⟩, ⟨"b@gmail.com", Provider.gmail⟩]
      [⟨"a@x.com", Provider.amazon, some 10⟩] "a@x.com").1
      ⟨⟨"a@x.com", Provider.amazon, some 10⟩, by decide, rfl⟩,
   (onSelectSenderEmail_appends_default_rate_unless_present
      [⟨"a@x.com", Provider.amazon⟩, ⟨"b@gmail.com", Provider.gmail⟩]
      [⟨"a@x.com", Provider.amazon, some 10⟩] "b@gmail.com").2
      ⟨"b@gmail.com", Provider.gmail⟩ (by decide) (by decide)⟩

/-- `handleUpdateEmailRate` from `part_001` lines 349–356, over the
draft's sender-email list: set `sendingRate` on every entry whose
address matches; no clamping of the requested value happens anywhere on
this path (the number input's min/max attributes do not constrain the
value `onChange` delivers). -/
def handleUpdateEmailRate (draftEmails : List EmailWithRate) (address : String) (rate : Int) :
    List EmailWithRate :=
  draftEmails.map (fun e =>
    if e.address == address then { e with sendingRate := some rate } else e)

/-- Claim C5, counterexample: requesting rate 2000 on the only entry
stores 2000 as is, which is outside the claimed bounds [1, 1440]. -/
theorem handleUpdateEmailRate_bounds_refuted :
    handleUpdateEmailRate [⟨"a@x.com", Provider.amazon, some 1440⟩] "a@x.com" 2000
      = [⟨"a@x.com", Provider.amazon, some 2000⟩]
    ∧ ¬ ((1 : Int) ≤ 2000 ∧ (2000 : Int) ≤ 1440) := by
  decide

/-- Claim C5 (amended): the rate update is a pure local map over the
draft's sender list that leaves its length unchanged, rewrites exactly
the entries whose address matches — changing only their `sendingRate`,
which becomes the requested value verbatim (no [1,1440] clamping) — and
leaves every other entry untouched. -/
theorem handleUpdateEmailRate_local_rate_only
    (draftEmails : List EmailWithRate) (address : String) (rate : Int) :
    (handleUpdateEmailRate draftEmails address rate).length = draftEmails.length
    ∧ ∀ (i : Nat) (h : i < draftEmails.length)
        (h2 : i < (handleUpdateEmailRate draftEmails address rate).length),
        ((draftEmails.get ⟨i, h⟩).address = address →
            (handleUpdateEmailRate draftEmails address rate).get ⟨i, h2⟩
              = { draftEmails.get ⟨i, h⟩ with sendingRate := some rate })
        ∧ ((draftEmails.get ⟨i, h⟩).address ≠ address →
            (handleUpdateEmailRate draftEmails address rate).get ⟨i, h2⟩
              = draftEmails.get ⟨i, h⟩) := by
  refine ⟨by simp [handleUpdateEmailRate], ?_⟩
  intro i h h2
  have hg : (handleUpdateEmailRate draftEmails address rate).get ⟨i, h2⟩
      = (if (draftEmails.get ⟨i, h⟩).address == address
          then { draftEmails.get ⟨i, h⟩ with sendingRate := some rate }
          else draftEmails.get ⟨i, h⟩) := by
    simp [handleUpdateEmailRate, List.get_eq_getElem, List.getElem_map]
  rw [hg]
  constructor <;> intro haddr
  · simp [haddr]
    intro hcon
    rw [List.get_eq_getElem] at haddr
    exact absurd haddr hcon
  · simp [haddr]
    intro hcon
    rw [List.get_eq_getElem] at haddr
    exact absurd hcon haddr

/-- Witness for the amended C5 theorem: updating the matching entry of a
two-entry draft rewrites its rate to the requested 7 and leaves the
non-matching entry alone. -/
theorem handleUpdateEmailRate_witness :
    (handleUpdateEmailRate [⟨"a@x.com", Provider.amazon, some 10⟩,
        ⟨"b@gmail.com", Provider.gmail, some 20⟩] "a@x.com" 7).length = 2
    ∧ (handleUpdateEmailRate [⟨"a@x.com", Provider.amazon, some 10⟩,
        ⟨"b@gmail.com", Provider.gmail, some 20⟩] "a@x.com" 7).get ⟨0, by decide⟩
      = ⟨"a@x.com", Provider.amazon, some 7⟩
    ∧ (handleUpdateEmailRate [⟨"a@x.com", Provider.amazon, some 10⟩,
        ⟨"b@gmail.com", Provider.gmail, some 20⟩] "a@x.com" 7).get ⟨1, by decide⟩
      = ⟨"b@gmail.com", Provider.gmail, some 20⟩ := by
  have h := handleUpdateEmailRate_local_rate_only
    [⟨"a@x.com", Provider.amazon, some 10⟩, ⟨"b@gmail.com", Provider.gmail, some 20⟩]
    "a@x.com" 7
  exact ⟨h.1, (h.2 0 (by decide) (by decide)).1 rfl, (h.2 1 (by decide) (by decide)).2 (by decide)⟩

/-- Outcome of a single awaited remote call whose error result the
source checks. -/
inductive RemoteOutcome where
  | ok
  | fail
deriving DecidableEq, Repr

/-- Outcome of the credential insert in `GoogleTab.tsx`: success, the
uniqueness-violation error code `23505`, or any other error. -/
inductive InsertOutcome where
  | ok
  | uniqueViolation
  | otherError
deriving DecidableEq, Repr

/-- A character the local part of `^[^\s@]+@gmail\.com$` may contain:
anything but `@` and the ASCII whitespace class of JavaScript `\s`. -/
def jsEmailLocalChar (c : Char) : Bool :=
  !(c == '@' || c == ' ' || c == '\t' || c == '\n' || c == '\r' || c == '\x0b' || c == '\x0c')

/-- `validateEmail` from `GoogleTab.tsx` lines 46–48: the string matches
`^[^\s@]+@gmail\.com$`, i.e. it is a non-empty run of non-space,
non-`@` characters followed by the literal `@gmail.com`. -/
def validateEmail (email : String) : Bool :=
  let cs := email.data
  let tail := "@gmail.com".data
  let localLen := cs.length - tail.length
  decide (tail.length ≤ cs.length) && decide (0 < localLen)
    && (cs.drop localLen == tail) && (cs.take localLen).all jsEmailLocalChar

/-- `validateAppPassword` from `GoogleTab.tsx` lines 50–52: exactly 16
characters, all of them in `[a-zA-Z0-9]`. -/
def validateAppPassword (password : String) : Bool :=
  password.length == 16 && password.data.all (fun c => c.isAlpha || c.isDigit)

/-- What `handleAddGoogleEmail` left behind: the cached list, which
error setters it invoked (`none` = untouched), whether it alerted, and
whether the remote insert was ever attempted. -/
structure GoogleAddResult where
  googleEmails : List GoogleEmail
  emailErrorSet : Option String
  passwordErrorSet : Option String
  alertMsg : Option String
  remoteAttempted : Bool
deriving DecidableEq, Repr

/-- `handleAddGoogleEmail` from `GoogleTab.tsx` lines 54–106, branch by
branch in source order; `auth` is whether `supabase.auth.getUser()`
returned a user (its absence throws into the catch, which alerts). -/
def handleAddGoogleEmail (googleEmails : List GoogleEmail) (newEmail newAppPassword : String)
    (auth : Bool) (insertOutcome : InsertOutcome) : GoogleAddResult :=
  if validateEmail newEmail = false then
    ⟨googleEmails, some "Please enter a valid Gmail address", none, none, false⟩
  else if validateAppPassword newAppPassword = false then
    ⟨googleEmails, none, some "App password must be 16 characters long", none, false⟩
  else if googleEmails.any (fun email => email.address == newEmail) then
    ⟨googleEmails, some "This email is already in the list", none, none, false⟩
  else if auth = false then
    ⟨googleEmails, none, none, some "Failed to add email. Please try again.", false⟩
  else
    match insertOutcome with
    | InsertOutcome.uniqueViolation =>
        ⟨googleEmails, some "This email is already registered", none, none, true⟩
    | InsertOutcome.otherError =>
        ⟨googleEmails, none, none, some "Failed to add email. Please try again.", true⟩
    | InsertOutcome.ok =>
        ⟨googleEmails ++ [{ address := newEmail, appPassword := newAppPassword }],
          some "", some "", none, true⟩

/-- What `handleRemoveGoogleEmail` left behind. -/
structure GoogleRemoveResult where
  googleEmails : List GoogleEmail
  alertMsg : Option String
deriving DecidableEq, Repr

/-- `handleRemoveGoogleEmail` from `GoogleTab.tsx` lines 108–128. -/
def handleRemoveGoogleEmail (googleEmails : List GoogleEmail) (address : String)
    (auth : Bool) (deleteOutcome : RemoteOutcome) : GoogleRemoveResult :=
  if auth = false then
    ⟨googleEmails, some "Failed to remove email. Please try again."⟩
  else
    match deleteOutcome with
    | RemoteOutcome.fail => ⟨googleEmails, some "Failed to remove email. Please try again."⟩
    | RemoteOutcome.ok => ⟨googleEmails.filter (fun email => email.address != address), none⟩

/-- What `handleToggleActive` left behind. -/
structure ToggleResult where
  campaigns : List Campaign
  alertMsg : Option String
deriving DecidableEq, Repr

/-- `handleToggleActive` from `part_001` lines 373–405: find the
campaign, gate turning on through `validateCampaign`, then perform the
remote update and mirror it locally on success. -/
def handleToggleActive (campaigns : List Campaign) (campaignId : String) (isActive : Bool)
    (now : String) (updateOutcome : RemoteOutcome) : ToggleResult :=
  match campaigns.find? (fun c => c.id == campaignId) with
  | none => ⟨campaigns, none⟩
  | some campaign =>
    let validation := validateCampaign campaign
    if isActive && !validation.valid then
      ⟨campaigns, validation.reason⟩
    else
      match updateOutcome with
      | RemoteOutcome.fail =>
          ⟨campaigns, some "Failed to update campaign status. Please try again."⟩
      | RemoteOutcome.ok =>
          ⟨campaigns.map (fun c =>
              if c.id == campaignId then { c with isActive := isActive, lastModified := now }
              else c),
            none⟩

/-- What `handleDeleteCampaign` left behind. -/
structure DeleteResult where
  campaigns : List Campaign
  alertMsg : Option String
deriving DecidableEq, Repr

/-- `handleDeleteCampaign` from `part_001` lines 358–371. -/
def handleDeleteCampaign (campaigns : List Campaign) (id : String)
    (deleteOutcome : RemoteOutcome) : DeleteResult :=
  match deleteOutcome with
  | RemoteOutcome.fail => ⟨campaigns, some "Failed to delete campaign. Please try again."⟩
  | RemoteOutcome.ok => ⟨campaigns.filter (fun c => c.id != id), none⟩

/-- The payload written to the `campaigns` row by `handleSaveCampaign`
(`city` is only part of the insert payload, not the update payload). -/
structure CampaignRow where
  name : String
  is_active : Bool
  city : Option String
  subject_lines : List String
  days_till_close : String
  updated_at : String
deriving DecidableEq, Repr

/-- The insert payload of `part_001` lines 169–182. -/
def insertCampaignRow (draft : Campaign) (name now : String) : CampaignRow :=
  { name := name, is_active := false, city := some draft.city,
    subject_lines := draft.subjectLines, days_till_close := draft.daysTillClose,
    updated_at := now }

/-- The update payload of `part_001` lines 186–195. -/
def updateCampaignRow (draft : Campaign) (name now : String) : CampaignRow :=
  { name := name, is_active := false, city := none,
    subject_lines := draft.subjectLines, days_till_close := draft.daysTillClose,
    updated_at := now }

/-- Oracle for the awaited remote steps of one `handleSaveCampaign`
run.  `templatesDelete` and `emailsDelete` are listed because the
source awaits those calls, but their error results are NOT checked
there (lines 200–208 destructure nothing), so they cannot influence the
control flow. -/
structure SaveOutcomes where
  auth : Bool
  rowWrite : RemoteOutcome
  templatesDelete : RemoteOutcome
  emailsDelete : RemoteOutcome
  templatesInsert : RemoteOutcome
  emailsInsert : RemoteOutcome
deriving DecidableEq, Repr

/-- What `handleSaveCampaign` left behind: the campaign list, the draft
slot, the alert (if any), and the campaign row written remotely (if the
row write succeeded). -/
structure SaveResult where
  campaigns : List Campaign
  currentCampaign : Option Campaign
  alertMsg : Option String
  rowWritten : Option CampaignRow
deriving DecidableEq, Repr

/-- `handleSaveCampaign` from `part_001` lines 156–246.  `fetched` is
the list `fetchCampaigns` would deliver on the success path.  Every
checked failure throws into the catch, which alerts and touches no
state; the two association deletes are awaited unchecked. -/
def handleSaveCampaign (campaigns : List Campaign) (currentCampaign : Option Campaign)
    (name now : String) (fetched : List Campaign) (o : SaveOutcomes) : SaveResult :=
  match currentCampaign with
  | none => ⟨campaigns, none, none, none⟩
  | some draft =>
    if o.auth = false then
      ⟨campaigns, some draft, some "Failed to save campaign. Please try again.", none⟩
    else if o.rowWrite = RemoteOutcome.fail then
      ⟨campaigns, some draft, some "Failed to save campaign. Please try again.", none⟩
    else
      let row := if draft.id = "" then insertCampaignRow draft name now
                 else updateCampaignRow draft name now
      if draft.templates.length ≠ 0 ∧ o.templatesInsert = RemoteOutcome.fail then
        ⟨campaigns, some draft, some "Failed to save campaign. Please try again.", some row⟩
      else if draft.emails.length ≠ 0 ∧ o.emailsInsert = RemoteOutcome.fail then
        ⟨campaigns, some draft, some "Failed to save campaign. Please try again.", some row⟩
      else
        ⟨fetched, none, none, some row⟩

/-- A persisted draft (non-empty id) used by the save demos. -/
def saveDraftDemo : Campaign := { exampleValidCampaign with id := "c9" }

/-- Claim C6, counterexample: during a save whose association DELETE
fails remotely (oracle `templatesDelete := fail`) while the other steps
succeed, the source never checks that delete's error, so NO error is
surfaced and the in-memory state still changes: the draft closes and
the list is refreshed.  This contradicts "if the remote call fails then
an error is surfaced and the in-memory state is exactly what it was
before the call". -/
theorem save_silent_delete_failure_refutes_rollback :
    (handleSaveCampaign [] (some saveDraftDemo) "n" "t1" [exampleValidCampaign]
        ⟨true, RemoteOutcome.ok, RemoteOutcome.fail, RemoteOutcome.ok,
          RemoteOutcome.ok, RemoteOutcome.ok⟩).alertMsg = none
    ∧ (handleSaveCampaign [] (some saveDraftDemo) "n" "t1" [exampleValidCampaign]
        ⟨true, RemoteOutcome.ok, RemoteOutcome.fail, RemoteOutcome.ok,
          RemoteOutcome.ok, RemoteOutcome.ok⟩).currentCampaign = none
    ∧ (handleSaveCampaign [] (some saveDraftDemo) "n" "t1" [exampleValidCampaign]
        ⟨true, RemoteOutcome.ok, RemoteOutcome.fail, RemoteOutcome.ok,
          RemoteOutcome.ok, RemoteOutcome.ok⟩).campaigns = [exampleValidCampaign] := by
  decide

/-- Claim C6 (amended): for every ERROR-CHECKED remote call — credential
add (once the local checks pass), credential remove, campaign delete,
activation toggle, and the save path's auth lookup, row write and
association inserts — a failure surfaces an error to the user and
leaves the in-memory credential list, campaign list and draft exactly
as before; the save path's association deletes are awaited unchecked,
so their failure is silent. -/
theorem checked_remote_failure_surfaces_error_and_preserves_state
    (gEmails : List GoogleEmail) (newEmail newPw address : String)
    (campaigns : List Campaign) (campaignId now name : String) (isActive : Bool)
    (draft : Campaign) (fetched : List Campaign) (o : SaveOutcomes) :
    (∀ (auth : Bool) (out : InsertOutcome),
        validateEmail newEmail = true → validateAppPassword newPw = true →
        (gEmails.any fun e => e.address == newEmail) = false →
        (auth = false ∨ out ≠ InsertOutcome.ok) →
        (handleAddGoogleEmail gEmails newEmail newPw auth out).googleEmails = gEmails
        ∧ ((handleAddGoogleEmail gEmails newEmail newPw auth out).emailErrorSet ≠ none
            ∨ (handleAddGoogleEmail gEmails newEmail newPw auth out).alertMsg ≠ none))
    ∧ (∀ (auth : Bool) (delOut : RemoteOutcome),
        (auth = false ∨ delOut = RemoteOutcome.fail) →
        handleRemoveGoogleEmail gEmails address auth delOut
          = ⟨gEmails, some "Failed to remove email. Please try again."⟩)
    ∧ (∀ campaign, campaigns.find? (fun c => c.id == campaignId) = some campaign →
        (isActive = false ∨ (validateCampaign campaign).valid = true) →
        handleToggleActive campaigns campaignId isActive now RemoteOutcome.fail
          = ⟨campaigns, some "Failed to update campaign status. Please try again."⟩)
    ∧ (handleDeleteCampaign campaigns campaignId RemoteOutcome.fail
        = ⟨campaigns, some "Failed to delete campaign. Please try again."⟩)
    ∧ ((o.auth = false ∨ o.rowWrite = RemoteOutcome.fail
          ∨ (draft.templates ≠ [] ∧ o.templatesInsert = RemoteOutcome.fail)
          ∨ (draft.emails ≠ [] ∧ o.emailsInsert = RemoteOutcome.fail)) →
        (handleSaveCampaign campaigns (some draft) name now fetched o).campaigns = campaigns
        ∧ (handleSaveCampaign campaigns (some draft) name now fetched o).currentCampaign
            = some draft
        ∧ (handleSaveCampaign campaigns (some draft) name now fetched o).alertMsg
            = some "Failed to save campaign. Please try again.") := by
  refine ⟨?_, ?_, ?_, ?_, ?_⟩
  · intro auth out hv1 hv2 hdup hfail
    rcases hfail with h | h
    · subst h
      cases out <;> simp [handleAddGoogleEmail, hv1, hv2, hdup]
    · cases out
      · exact absurd rfl h
      · cases auth <;> simp [handleAddGoogleEmail, hv1, hv2, hdup]
      · cases auth <;> simp [handleAddGoogleEmail, hv1, hv2, hdup]
  · intro auth delOut hfail
    cases auth <;> cases delOut <;> simp_all [handleRemoveGoogleEmail]
  · intro campaign hfind hok
    unfold handleToggleActive
    rw [hfind]
    rcases hok with h | h <;> simp [h]
  · rfl
  · intro hfail
    obtain ⟨auth, row, td, ed, ti, ei⟩ := o
    unfold handleSaveCampaign
    cases auth <;> cases row <;> cases ti <;> cases ei <;>
      by_cases ht : draft.templates = [] <;> by_cases he : draft.emails = [] <;>
      simp_all [List.length_eq_zero]

/-- Witness for the amended C6 theorem: each operation at a concrete
input with its remote call failing keeps state and raises its error. -/
theorem checked_remote_failure_witness :
    ((handleAddGoogleEmail [] "w@gmail.com" "abcdefghijklmnop" true
        InsertOutcome.otherError).googleEmails = []
      ∧ ((handleAddGoogleEmail [] "w@gmail.com" "abcdefghijklmnop" true
            InsertOutcome.otherError).emailErrorSet ≠ none
          ∨ (handleAddGoogleEmail [] "w@gmail.com" "abcdefghijklmnop" true
              InsertOutcome.otherError).alertMsg ≠ none))
    ∧ handleRemoveGoogleEmail [⟨"g@gmail.com", "pw", none⟩] "g@gmail.com" true
        RemoteOutcome.fail
      = ⟨[⟨"g@gmail.com", "pw", none⟩], some "Failed to remove email. Please try again."⟩
    ∧ handleToggleActive [exampleValidCampaign] "c0" true "t1" RemoteOutcome.fail
      = ⟨[exampleValidCampaign], some "Failed to update campaign status. Please try again."⟩
    ∧ handleDeleteCampaign [exampleValidCampaign] "c0" RemoteOutcome.fail
      = ⟨[exampleValidCampaign], some "Failed to delete campaign. Please try again."⟩
    ∧ (handleSaveCampaign [] (some saveDraftDemo) "n" "t1" []
        ⟨true, RemoteOutcome.fail, RemoteOutcome.ok, RemoteOutcome.ok,
          RemoteOutcome.ok, RemoteOutcome.ok⟩).campaigns = []
    ∧ (handleSaveCampaign [] (some saveDraftDemo) "n" "t1" []
        ⟨true, RemoteOutcome.fail, RemoteOutcome.ok, RemoteOutcome.ok,
          RemoteOutcome.ok, RemoteOutcome.ok⟩).currentCampaign = some saveDraftDemo := by
  have h := checked_remote_failure_surfaces_error_and_preserves_state
    [] "w@gmail.com" "abcdefghijklmnop" "g@gmail.com" [exampleValidCampaign] "c0" "t1" "n"
    true saveDraftDemo []
    ⟨true, RemoteOutcome.fail, RemoteOutcome.ok, RemoteOutcome.ok,
      RemoteOutcome.ok, RemoteOutcome.ok⟩
  have hremove := (checked_remote_failure_surfaces_error_and_preserves_state
    [⟨"g@gmail.com", "pw", none⟩] "w@gmail.com" "abcdefghijklmnop" "g@gmail.com"
    [exampleValidCampaign] "c0" "t1" "n" true saveDraftDemo []
    ⟨true, RemoteOutcome.fail, RemoteOutcome.ok, RemoteOutcome.ok,
      RemoteOutcome.ok, RemoteOutcome.ok⟩).2.1 true RemoteOutcome.fail (Or.inr rfl)
  have hsave := (checked_remote_failure_surfaces_error_and_preserves_state
    [] "w@gmail.com" "abcdefghijklmnop" "g@gmail.com" [] "c0" "t1" "n"
    true saveDraftDemo []
    ⟨true, RemoteOutcome.fail, RemoteOutcome.ok, RemoteOutcome.ok,
      RemoteOutcome.ok, RemoteOutcome.ok⟩).2.2.2.2 (Or.inr (Or.inl rfl))
  exact ⟨h.1 true InsertOutcome.otherError (by decide) (by decide) (by decide)
      (Or.inr (by decide)),
    hremove,
    h.2.2.1 exampleValidCampaign (by decide) (Or.inr (by decide)),
    h.2.2.2.1,
    hsave.1,
    hsave.2.1⟩

/-- The editor's list-view state: the campaign list plus the draft slot
(`currentCampaign = none` is the Browsing state). -/
structure EditorState where
  campaigns : List Campaign
  currentCampaign : Option Campaign
deriving DecidableEq, Repr

/-- `handleCampaignClick` from `part_001` lines 407–419:
`clickOnControl` models `target.closest` hitting the toggle wrapper or
the delete button, which returns before any campaign logic runs. -/
def handleCampaignClick (clickOnControl : Bool) (state : EditorState) (campaign : Campaign) :
    EditorState × Option String :=
  if clickOnControl then (state, none)
  else if campaign.isActive then
    (state, some "Cannot edit an active campaign. Please deactivate it first.")
  else ({ state with currentCampaign := some campaign }, none)

/-- Claim C7: clicking an ACTIVE campaign (not on its toggle or delete
controls) is rejected with the deactivate-first message and changes
nothing — the draft slot and the campaign list stay as they were; an
inactive campaign becomes the current draft, with the list unchanged. -/
theorem handleCampaignClick_rejects_active (state : EditorState) (campaign : Campaign) :
    (campaign.isActive = true →
        handleCampaignClick false state campaign
          = (state, some "Cannot edit an active campaign. Please deactivate it first."))
    ∧ (campaign.isActive = false →
        handleCampaignClick false state campaign
          = ({ campaigns := state.campaigns, currentCampaign := some campaign }, none)) := by
  constructor <;> intro h <;> simp [handleCampaignClick, h]

/-- Witness for C7: from the Browsing state, clicking the active demo
campaign keeps `currentCampaign = none` and the list intact while
alerting; clicking the inactive demo campaign opens it as the draft. -/
theorem handleCampaignClick_witness :
    handleCampaignClick false ⟨[{ exampleValidCampaign with isActive := true }], none⟩
        { exampleValidCampaign with isActive := true }
      = (⟨[{ exampleValidCampaign with isActive := true }], none⟩,
          some "Cannot edit an active campaign. Please deactivate it first.")
    ∧ handleCampaignClick false ⟨[exampleValidCampaign], none⟩ exampleValidCampaign
      = (⟨[exampleValidCampaign], some exampleValidCampaign⟩, none) :=
  ⟨(handleCampaignClick_rejects_active
      ⟨[{ exampleValidCampaign with isActive := true }], none⟩
      { exampleValidCampaign with isActive := true }).1 rfl,
   (handleCampaignClick_rejects_active
      ⟨[exampleValidCampaign], none⟩ exampleValidCampaign).2 rfl⟩

/-- Claim C8, counterexample: a submission whose address IS already in
the cached list but whose app password fails validation is rejected
with the PASSWORD error, not a duplicate error — the duplicate check
only runs third — so "for every submission whose address already occurs
... add fails with a duplicate error" is false (the list is still
unchanged and no remote insert happens). -/
theorem googleAdd_duplicate_error_first_refuted :
    (([(⟨"dup@gmail.com", "abcdefghijklmnop", none⟩ : GoogleEmail)].any
        fun e => e.address == "dup@gmail.com") = true)
    ∧ (handleAddGoogleEmail [⟨"dup@gmail.com", "abcdefghijklmnop", none⟩]
        "dup@gmail.com" "short" true InsertOutcome.ok).emailErrorSet = none
    ∧ (handleAddGoogleEmail [⟨"dup@gmail.com", "abcdefghijklmnop", none⟩]
        "dup@gmail.com" "short" true InsertOutcome.ok).passwordErrorSet
      = some "App password must be 16 characters long"
    ∧ (handleAddGoogleEmail [⟨"dup@gmail.com", "abcdefghijklmnop", none⟩]
        "dup@gmail.com" "short" true InsertOutcome.ok).googleEmails
      = [⟨"dup@gmail.com", "abcdefghijklmnop", none⟩]
    ∧ (handleAddGoogleEmail [⟨"dup@gmail.com", "abcdefghijklmnop", none⟩]
        "dup@gmail.com" "short" true InsertOutcome.ok).remoteAttempted = false := by
  decide

/-- Claim C8 (amended): for a submission that passes the Gmail-format
and app-password checks, (1) if its address is already cached the add
fails locally with the "already in the list" error before any remote
insert and the cached list is unchanged; (2) if the local checks pass
but the remote insert reports the uniqueness code 23505, the distinct
"already registered" error is surfaced, the list is unchanged, and the
remote insert was indeed attempted. -/
theorem googleAdd_duplicate_detection (gEmails : List GoogleEmail)
    (newEmail newPw : String) (auth : Bool) (out : InsertOutcome) :
    (validateEmail newEmail = true → validateAppPassword newPw = true →
        (gEmails.any fun e => e.address == newEmail) = true →
        (handleAddGoogleEmail gEmails newEmail newPw auth out).emailErrorSet
            = some "This email is already in the list"
        ∧ (handleAddGoogleEmail gEmails newEmail newPw auth out).googleEmails = gEmails
        ∧ (handleAddGoogleEmail gEmails newEmail newPw auth out).remoteAttempted = false)
    ∧ (validateEmail newEmail = true → validateAppPassword newPw = true →
        (gEmails.any fun e => e.address == newEmail) = false → auth = true →
        out = InsertOutcome.uniqueViolation →
        (handleAddGoogleEmail gEmails newEmail newPw auth out).emailErrorSet
            = some "This email is already registered"
        ∧ (handleAddGoogleEmail gEmails newEmail newPw auth out).googleEmails = gEmails
        ∧ (handleAddGoogleEmail gEmails newEmail newPw auth out).remoteAttempted = true) := by
  constructor
  · intro hv1 hv2 hdup
    simp [handleAddGoogleEmail, hv1, hv2, hdup]
  · intro hv1 hv2 hdup hauth hout
    simp [handleAddGoogleEmail, hv1, hv2, hdup, hauth, hout]

/-- Witness for the amended C8 theorem: a concrete valid resubmission of
a cached address fails locally with the duplicate message, and a fresh
address hitting the remote 23505 fails with the distinct message. -/
theorem googleAdd_duplicate_detection_witness :
    ((handleAddGoogleEmail [⟨"dup@gmail.com", "abcdefghijklmnop", none⟩]
        "dup@gmail.com" "abcdefghijklmnop" true InsertOutcome.ok).emailErrorSet
      = some "This email is already in the list"
    ∧ (handleAddGoogleEmail [⟨"dup@gmail.com", "abcdefghijklmnop", none⟩]
        "dup@gmail.com" "abcdefghijklmnop" true InsertOutcome.ok).remoteAttempted = false)
    ∧ ((handleAddGoogleEmail [⟨"dup@gmail.com", "abcdefghijklmnop", none⟩]
        "new@gmail.com" "abcdefghijklmnop" true InsertOutcome.uniqueViolation).emailErrorSet
      = some "This email is already registered"
    ∧ (handleAddGoogleEmail [⟨"dup@gmail.com", "abcdefghijklmnop", none⟩]
        "new@gmail.com" "abcdefghijklmnop" true
        InsertOutcome.uniqueViolation).remoteAttempted = true) := by
  have h1 := (googleAdd_duplicate_detection [⟨"dup@gmail.com", "abcdefghijklmnop", none⟩]
    "dup@gmail.com" "abcdefghijklmnop" true InsertOutcome.ok).1
    (by decide) (by decide) (by decide)
  have h2 := (googleAdd_duplicate_detection [⟨"dup@gmail.com", "abcdefghijklmnop", none⟩]
    "new@gmail.com" "abcdefghijklmnop" true InsertOutcome.uniqueViolation).2
    (by decide) (by decide) (by decide) rfl rfl
  exact ⟨⟨h1.1, h1.2.2⟩, ⟨h2.1, h2.2.2⟩⟩

/-- Claim C9: both persistence payload builders set `is_active := false`,
and whatever row a save run actually writes carries
`is_active = false`, regardless of the draft's own `isActive` flag. -/
theorem saveCampaign_always_persists_inactive (campaigns : List Campaign) (draft : Campaign)
    (name now : String) (fetched : List Campaign) (o : SaveOutcomes) :
    (insertCampaignRow draft name now).is_active = false
    ∧ (updateCampaignRow draft name now).is_active = false
    ∧ (∀ r, (handleSaveCampaign campaigns (some draft) name now fetched o).rowWritten = some r →
        r.is_active = false) := by
  refine ⟨rfl, rfl, ?_⟩
  intro r hr
  simp only [handleSaveCampaign] at hr
  split_ifs at hr <;> simp_all [insertCampaignRow, updateCampaignRow] <;> rw [← hr]

/-- Witness for C9 at a concrete input: saving a draft whose in-memory
`isActive` is TRUE still writes `is_active = false` on the update
path. -/
theorem saveCampaign_always_persists_inactive_witness :
    (handleSaveCampaign [] (some { saveDraftDemo with isActive := true }) "n" "t1" []
        ⟨true, RemoteOutcome.ok, RemoteOutcome.ok, RemoteOutcome.ok,
          RemoteOutcome.ok, RemoteOutcome.ok⟩).rowWritten
      = some (updateCampaignRow { saveDraftDemo with isActive := true } "n" "t1")
    ∧ (updateCampaignRow { saveDraftDemo with isActive := true } "n" "t1").is_active = false :=
  ⟨by decide,
   (saveCampaign_always_persists_inactive [] { saveDraftDemo with isActive := true } "n" "t1" []
      ⟨true, RemoteOutcome.ok, RemoteOutcome.ok, RemoteOutcome.ok,
        RemoteOutcome.ok, RemoteOutcome.ok⟩).2.2
      (updateCampaignRow { saveDraftDemo with isActive := true } "n" "t1") (by decide)⟩

end EmailsFront
